import Mathlib

/-!
Verification of the header-rewriting pipeline of a single-backend HTTP
reverse proxy (main.go).  The Go functions `getRealIP`, the custom
`proxy.Director` closure, and `proxy.ErrorHandler` are embedded shallowly:
HTTP headers become a finite map from canonical header keys to optional
value lists (mirroring Go's `http.Header`, a `map[string][]string` in
which a key may be absent, and `Get`/`Set`/`Del` have their textproto
semantics); requests become a record of the fields the pipeline touches.
Dependencies from the Go standard library that the pipeline calls
(`net.SplitHostPort`, `strings.Split`, `strings.TrimSpace`,
`strings.Join`, and the URL rewriting performed by
`httputil.NewSingleHostReverseProxy`'s director) are translated from
their stdlib sources so that the embedded director is the whole
rewriting step.
-/

/-- Go `http.Header`: a map from (canonical) header keys to value lists.
`none` means the key is absent from the map; `some vs` means present with
values `vs`.  Inbound requests parsed by net/http always use canonical
keys, and the code only ever accesses canonical keys, so keys are plain
strings compared exactly. -/
def HeaderMap : Type := String → Option (List String)

/-- Go `Header.Get`: first value of the key, or `""` when the key is
absent or has no values (textproto `MIMEHeader.Get`). -/
def headerGet (h : HeaderMap) (k : String) : String :=
  match h k with
  | some (v :: _) => v
  | _ => ""

/-- Go `Header.Set`: replace the key's values with the single value `v`. -/
def headerSet (h : HeaderMap) (k v : String) : HeaderMap :=
  fun q => if q = k then some [v] else h q

/-- Go `Header.Del`: delete the key from the map. -/
def headerDel (h : HeaderMap) (k : String) : HeaderMap :=
  fun q => if q = k then none else h q

/-- Go `_, ok := header[k]`: whether the key is present in the map. -/
def headerHas (h : HeaderMap) (k : String) : Bool :=
  (h k).isSome

/-- The fields of Go's `url.URL` used by the proxy: the upstream target
parsed from BACKEND_URL, and the request URL rewritten by the single-host
director. -/
@[ext] structure GoURL where
  scheme : String
  host : String
  path : String
  rawQuery : String

/-- The fields of Go's `http.Request` the rewriting pipeline reads or
writes.  `tls` models `req.TLS != nil`; `body` is the opaque byte stream,
carried only to state that rewriting never touches it. -/
@[ext] structure Request where
  method : String
  url : GoURL
  host : String
  header : HeaderMap
  remoteAddr : String
  tls : Bool
  body : List UInt8

/-- Index of the last occurrence of `c` (Go `last(s, byte)` used by
`net.SplitHostPort`). -/
def lastByteIndexAux (c : Char) : List Char → Nat → Option Nat → Option Nat
  | [], _, acc => acc
  | x :: xs, i, acc => lastByteIndexAux c xs (i + 1) (if x = c then some i else acc)

def lastByteIndex (cs : List Char) (c : Char) : Option Nat :=
  lastByteIndexAux c cs 0 none

/-- Index of the first occurrence of `c` (Go `byteIndex`). -/
def byteIndexAux (c : Char) : List Char → Nat → Option Nat
  | [], _ => none
  | x :: xs, i => if x = c then some i else byteIndexAux c xs (i + 1)

def byteIndexOf (cs : List Char) (c : Char) : Option Nat :=
  byteIndexAux c cs 0

/-- Go `net.SplitHostPort(hostPort)`, translated from net/ipsock.go:
returns `some (host, port)` on success and `none` on any of its error
returns (missing port, too many colons, bracket errors).  The addresses
the proxy sees are ASCII, for which rune indices and Go's byte indices
agree. -/
def splitHostPort (hostPort : String) : Option (String × String) :=
  let cs := hostPort.data
  match lastByteIndex cs ':' with
  | none => none
  | some i =>
    if cs.head? = some '[' then
      match byteIndexOf cs ']' with
      | none => none
      | some endi =>
        if endi + 1 = cs.length then none
        else if endi + 1 = i then
          if (cs.drop 1).contains '[' then none
          else if (cs.drop (endi + 1)).contains ']' then none
          else some (String.mk ((cs.drop 1).take (endi - 1)), String.mk (cs.drop (i + 1)))
        else none
    else
      if (cs.take i).contains ':' then none
      else if cs.contains '[' then none
      else if cs.contains ']' then none
      else some (String.mk (cs.take i), String.mk (cs.drop (i + 1)))

/-- Go `unicode.IsSpace`, by code point (Unicode White_Space set used by
`strings.TrimSpace`). -/
def goIsSpace (c : Char) : Bool :=
  let n := c.toNat
  n = 9 || n = 10 || n = 11 || n = 12 || n = 13 || n = 32 ||
  n = 0x85 || n = 0xA0 || n = 0x1680 || (0x2000 ≤ n && n ≤ 0x200A) ||
  n = 0x2028 || n = 0x2029 || n = 0x202F || n = 0x205F || n = 0x3000

/-- Go `strings.TrimSpace`: drop leading and trailing white space. -/
def trimSpace (s : String) : String :=
  String.mk (((s.data.dropWhile goIsSpace).reverse.dropWhile goIsSpace).reverse)

/-- Go `strings.Split(s, ",")`: substrings of `s` between commas;
`Split("", ",") = [""]`, and the result is never empty. -/
def splitOnCommaAux : List Char → List Char → List String
  | [], acc => [String.mk acc.reverse]
  | x :: xs, acc =>
    if x = ',' then String.mk acc.reverse :: splitOnCommaAux xs []
    else splitOnCommaAux xs (x :: acc)

def stringsSplitComma (s : String) : List String :=
  splitOnCommaAux s.data []

/-- Go `strings.Join(elems, ", ")`. -/
def stringsJoinCommaSpace (elems : List String) : String :=
  String.intercalate ", " elems

/-- `getRealIP` (main.go): X-Real-IP first; else the first comma-separated
entry of X-Forwarded-For, trimmed; else the host part of RemoteAddr, or
the raw RemoteAddr when it cannot be split.  The Go early returns are
captured by the `Option` for the X-Forwarded-For branch (`len(ips) > 0`
is the code's guard; when it fails control falls through to RemoteAddr). -/
def getRealIP (r : Request) : String :=
  let xri := headerGet r.header "X-Real-IP"
  if xri ≠ "" then xri
  else
    let xff := headerGet r.header "X-Forwarded-For"
    let fromXff : Option String :=
      if xff ≠ "" then
        let ips := stringsSplitComma xff
        if ips.length > 0 then some (trimSpace (ips.headD "")) else none
      else none
    match fromXff with
    | some ip => ip
    | none =>
      match splitHostPort r.remoteAddr with
      | some (ip, _) => ip
      | none => r.remoteAddr

/-- Go `singleJoiningSlash` (net/http/httputil): `a.data.getLast?` models
`strings.HasSuffix(a, "/")` and `b.data.head?` models
`strings.HasPrefix(b, "/")` for the one-character suffix "/". -/
def singleJoiningSlash (a b : String) : String :=
  let aslash := a.data.getLast? = some '/'
  let bslash := b.data.head? = some '/'
  if aslash ∧ bslash then a ++ String.mk (b.data.drop 1)
  else if ¬ aslash ∧ ¬ bslash then a ++ "/" ++ b
  else a ++ b

/-- The URL rewriting done by `httputil.NewSingleHostReverseProxy`'s
director (`rewriteRequestURL`): scheme and host from the target, paths
joined with a single slash, raw queries concatenated. -/
def rewriteRequestURL (u target : GoURL) : GoURL :=
  { scheme := target.scheme
    host := target.host
    path := singleJoiningSlash target.path u.path
    rawQuery :=
      if target.rawQuery = "" ∨ u.rawQuery = "" then target.rawQuery ++ u.rawQuery
      else target.rawQuery ++ "&" ++ u.rawQuery }

/-- `originalDirector` in main.go: the director installed by
`httputil.NewSingleHostReverseProxy(target)`, which rewrites only the
request URL. -/
def singleHostDirector (target : GoURL) (r : Request) : Request :=
  { r with url := rewriteRequestURL r.url target }

/-- Director step 1 (main.go lines 141-143): delete the hop-by-hop
headers Connection, Upgrade and Transfer-Encoding. -/
def stripHopByHop (r : Request) : Request :=
  { r with header :=
      headerDel (headerDel (headerDel r.header "Connection") "Upgrade") "Transfer-Encoding" }

/-- Director step 2 (main.go line 149): overwrite the routing host with
the upstream target's host (the original host is recorded by the caller
before this step). -/
def hostRewrite (targetHost : String) (r : Request) : Request :=
  { r with host := targetHost }

/-- Director step 3 (main.go lines 151-165): when X-Real-IP is non-empty,
set X-Forwarded-For to it; otherwise, when RemoteAddr splits into host
and port, append the host to the joined prior X-Forwarded-For values (or
use it alone when the key is absent); when RemoteAddr does not split,
leave the header untouched. -/
def setForwardedFor (r : Request) : Request :=
  let xri := headerGet r.header "X-Real-IP"
  if xri ≠ "" then
    { r with header := headerSet r.header "X-Forwarded-For" xri }
  else
    match splitHostPort r.remoteAddr with
    | some (clientIP, _) =>
      let v :=
        match r.header "X-Forwarded-For" with
        | some prior => stringsJoinCommaSpace prior ++ ", " ++ clientIP
        | none => clientIP
      { r with header := headerSet r.header "X-Forwarded-For" v }
    | none => r

/-- Director step 4 (main.go lines 168-181): when X-Forwarded-Proto is
absent, set it from the connection ("https" when TLS, else the code's
re-read of the absent header — dead, kept for fidelity — else "http"). -/
def setForwardedProto (r : Request) : Request :=
  if headerHas r.header "X-Forwarded-Proto" then r
  else if r.tls then
    { r with header := headerSet r.header "X-Forwarded-Proto" "https" }
  else if headerGet r.header "X-Forwarded-Proto" ≠ "" then
    { r with header :=
        headerSet r.header "X-Forwarded-Proto" (headerGet r.header "X-Forwarded-Proto") }
  else
    { r with header := headerSet r.header "X-Forwarded-Proto" "http" }

/-- Director step 5 (main.go lines 184-186): when X-Forwarded-Host is
absent, set it to the original host recorded before the host rewrite. -/
def setForwardedHost (originalHost : String) (r : Request) : Request :=
  if headerHas r.header "X-Forwarded-Host" then r
  else { r with header := headerSet r.header "X-Forwarded-Host" originalHost }

/-- The custom `proxy.Director` (main.go lines 137-191): run the
single-host director, strip hop-by-hop headers, record the original host,
rewrite the routing host, then the three X-Forwarded-* steps. -/
def director (target : GoURL) (r : Request) : Request :=
  let r1 := singleHostDirector target r
  let r2 := stripHopByHop r1
  let originalHost := r2.host
  let r3 := hostRewrite target.host r2
  let r4 := setForwardedFor r3
  let r5 := setForwardedProto r4
  setForwardedHost originalHost r5

/-- A synthesized HTTP response: status code and body. -/
@[ext] structure HTTPResponse where
  status : Nat
  body : String
deriving DecidableEq

/-- Go `http.StatusBadGateway`. -/
def statusBadGateway : Nat := 502

/-- Go `http.Error(w, msg, code)`: reply with the status code and the
message followed by a newline. -/
def httpError (msg : String) (code : Nat) : HTTPResponse :=
  { status := code, body := msg ++ "\n" }

/-- `proxy.ErrorHandler` (main.go lines 107-110), as a function from the
request's method and URL and the transport error's detail string to the
pair (response sent to the client, line given to the log). -/
def proxyErrorHandler (method urlStr errDetail : String) : HTTPResponse × String :=
  (httpError "Proxy error" statusBadGateway,
   "Proxy error for " ++ method ++ " " ++ urlStr ++ ": " ++ errDetail)

/-! ### Concrete fixtures used to instantiate the theorems -/

/-- The upstream target of the spec's scenario: `http://backend.internal:9000`. -/
def upstreamT : GoURL :=
  { scheme := "http", host := "backend.internal:9000", path := "", rawQuery := "" }

/-- A typical inbound request URL (server-parsed requests carry only
path and query). -/
def inboundURL : GoURL :=
  { scheme := "", host := "", path := "/items/42", rawQuery := "" }

/-- The spec's scenario request: X-Forwarded-For 10.0.0.1, connection
address 10.0.0.2:443, encrypted, no other forwarding headers. -/
def reqChain : Request :=
  { method := "GET", url := inboundURL, host := "example.com"
    header := fun k => if k = "X-Forwarded-For" then some ["10.0.0.1"] else none
    remoteAddr := "10.0.0.2:443", tls := true, body := [] }

/-- A request bearing a trusted X-Real-IP signal. -/
def reqTrusted : Request :=
  { method := "GET", url := inboundURL, host := "example.com"
    header := fun k => if k = "X-Real-IP" then some ["9.9.9.9"] else none
    remoteAddr := "10.0.0.2:443", tls := true, body := [] }

/-- A bare request: no forwarding headers at all, unencrypted. -/
def reqBare : Request :=
  { method := "GET", url := inboundURL, host := "example.com"
    header := fun _ => none
    remoteAddr := "10.0.0.2:443", tls := false, body := [] }

/-- A request whose remote socket address cannot be split into host and
port (no colon). -/
def reqBadAddr : Request :=
  { method := "GET", url := inboundURL, host := "example.com"
    header := fun _ => none
    remoteAddr := "garbage", tls := false, body := [] }

/-- A request already carrying origin-protocol and origin-host headers
set by an earlier proxy in the chain. -/
def reqPreset : Request :=
  { method := "POST", url := inboundURL, host := "example.com"
    header := fun k =>
      if k = "X-Forwarded-Proto" then some ["https"]
      else if k = "X-Forwarded-Host" then some ["orig.example"]
      else none
    remoteAddr := "10.0.0.2:443", tls := false, body := [] }

/-- A request with the three hop-by-hop headers and an unrelated header
present, and a non-empty body. -/
def reqHop : Request :=
  { method := "GET", url := inboundURL, host := "example.com"
    header := fun k =>
      if k = "Connection" then some ["keep-alive"]
      else if k = "Upgrade" then some ["websocket"]
      else if k = "Transfer-Encoding" then some ["chunked"]
      else if k = "Accept" then some ["text/html"]
      else none
    remoteAddr := "10.0.0.2:443", tls := false, body := [7, 7] }

/-- A request whose chain header carries spaces around the first entry,
for the trimming branch of getRealIP. -/
def reqSpacedChain : Request :=
  { method := "GET", url := inboundURL, host := "example.com"
    header := fun k => if k = "X-Forwarded-For" then some [" 10.0.0.1 , 7.7.7.7"] else none
    remoteAddr := "10.0.0.2:443", tls := false, body := [] }

/-! ### Header-map lemmas -/

theorem headerSet_self (h : HeaderMap) (k v : String) : headerSet h k v k = some [v] := by
  simp [headerSet]

theorem headerSet_ne (h : HeaderMap) (k v q : String) (hq : q ≠ k) :
    headerSet h k v q = h q := by
  simp [headerSet, hq]

theorem headerDel_ne (h : HeaderMap) (k q : String) (hq : q ≠ k) :
    headerDel h k q = h q := by
  simp [headerDel, hq]

theorem headerGet_set_self (h : HeaderMap) (k v : String) :
    headerGet (headerSet h k v) k = v := by
  simp [headerGet, headerSet]

theorem headerHas_set_self (h : HeaderMap) (k v : String) :
    headerHas (headerSet h k v) k = true := by
  simp [headerHas, headerSet]

theorem headerSet_set_self (h : HeaderMap) (k v : String) :
    headerSet (headerSet h k v) k v = headerSet h k v := by
  funext q
  by_cases hq : q = k <;> simp [headerSet, hq]

theorem headerHas_false_eq_none (h : HeaderMap) (k : String) (hk : headerHas h k = false) :
    h k = none := by
  simpa [headerHas, Option.isSome_iff_exists] using hk

theorem headerGet_of_none (h : HeaderMap) (k : String) (hk : h k = none) :
    headerGet h k = "" := by
  simp [headerGet, hk]

/-! ### Per-step frame lemmas: which request fields each step leaves alone -/

theorem singleHostDirector_header (t : GoURL) (r : Request) :
    (singleHostDirector t r).header = r.header := rfl

theorem stripHopByHop_header_ne (r : Request) (q : String)
    (h1 : q ≠ "Connection") (h2 : q ≠ "Upgrade") (h3 : q ≠ "Transfer-Encoding") :
    (stripHopByHop r).header q = r.header q := by
  simp [stripHopByHop, headerDel, h1, h2, h3]

theorem setForwardedFor_header_ne (r : Request) (q : String)
    (hq : q ≠ "X-Forwarded-For") :
    (setForwardedFor r).header q = r.header q := by
  simp only [setForwardedFor]
  split
  · simp [headerSet, hq]
  · split
    · simp [headerSet, hq]
    · rfl

theorem setForwardedProto_header_ne (r : Request) (q : String)
    (hq : q ≠ "X-Forwarded-Proto") :
    (setForwardedProto r).header q = r.header q := by
  simp only [setForwardedProto]
  split
  · rfl
  · split
    · simp [headerSet, hq]
    · split
      · simp [headerSet, hq]
      · simp [headerSet, hq]

theorem setForwardedHost_header_ne (oh : String) (r : Request) (q : String)
    (hq : q ≠ "X-Forwarded-Host") :
    (setForwardedHost oh r).header q = r.header q := by
  simp only [setForwardedHost]
  split
  · rfl
  · simp [headerSet, hq]

theorem setForwardedFor_fields (r : Request) :
    (setForwardedFor r).method = r.method ∧ (setForwardedFor r).url = r.url ∧
    (setForwardedFor r).host = r.host ∧ (setForwardedFor r).remoteAddr = r.remoteAddr ∧
    (setForwardedFor r).tls = r.tls ∧ (setForwardedFor r).body = r.body := by
  simp only [setForwardedFor]
  split
  · exact ⟨rfl, rfl, rfl, rfl, rfl, rfl⟩
  · split
    · exact ⟨rfl, rfl, rfl, rfl, rfl, rfl⟩
    · exact ⟨rfl, rfl, rfl, rfl, rfl, rfl⟩

theorem setForwardedProto_fields (r : Request) :
    (setForwardedProto r).method = r.method ∧ (setForwardedProto r).url = r.url ∧
    (setForwardedProto r).host = r.host ∧ (setForwardedProto r).remoteAddr = r.remoteAddr ∧
    (setForwardedProto r).tls = r.tls ∧ (setForwardedProto r).body = r.body := by
  simp only [setForwardedProto]
  split
  · exact ⟨rfl, rfl, rfl, rfl, rfl, rfl⟩
  · split
    · exact ⟨rfl, rfl, rfl, rfl, rfl, rfl⟩
    · split
      · exact ⟨rfl, rfl, rfl, rfl, rfl, rfl⟩
      · exact ⟨rfl, rfl, rfl, rfl, rfl, rfl⟩

theorem setForwardedHost_fields (oh : String) (r : Request) :
    (setForwardedHost oh r).method = r.method ∧ (setForwardedHost oh r).url = r.url ∧
    (setForwardedHost oh r).host = r.host ∧ (setForwardedHost oh r).remoteAddr = r.remoteAddr ∧
    (setForwardedHost oh r).tls = r.tls ∧ (setForwardedHost oh r).body = r.body := by
  simp only [setForwardedHost]
  split
  · exact ⟨rfl, rfl, rfl, rfl, rfl, rfl⟩
  · exact ⟨rfl, rfl, rfl, rfl, rfl, rfl⟩

theorem headerGet_congr (h h' : HeaderMap) (k : String) (e : h k = h' k) :
    headerGet h k = headerGet h' k := by
  unfold headerGet
  rw [e]

/-! ### What each rewriting step does to its own header -/

theorem setForwardedFor_spec (r : Request) :
    (headerGet r.header "X-Real-IP" ≠ "" →
      (setForwardedFor r).header "X-Forwarded-For" = some [headerGet r.header "X-Real-IP"]) ∧
    (headerGet r.header "X-Real-IP" = "" →
      ∀ ip port, splitHostPort r.remoteAddr = some (ip, port) →
        (∀ prior, r.header "X-Forwarded-For" = some prior →
          (setForwardedFor r).header "X-Forwarded-For"
            = some [stringsJoinCommaSpace prior ++ ", " ++ ip]) ∧
        (r.header "X-Forwarded-For" = none →
          (setForwardedFor r).header "X-Forwarded-For" = some [ip])) := by
  constructor
  · intro hx
    simp [setForwardedFor, hx, headerSet_self]
  · intro hx ip port hsp
    constructor
    · intro prior hp
      simp [setForwardedFor, hx, hsp, hp, headerSet_self]
    · intro hn
      simp [setForwardedFor, hx, hsp, hn, headerSet_self]

theorem setForwardedProto_spec (r : Request) :
    (∀ v, r.header "X-Forwarded-Proto" = some v →
      (setForwardedProto r).header "X-Forwarded-Proto" = some v) ∧
    (r.header "X-Forwarded-Proto" = none →
      (setForwardedProto r).header "X-Forwarded-Proto"
        = some [if r.tls then "https" else "http"]) := by
  constructor
  · intro v hv
    have hh : headerHas r.header "X-Forwarded-Proto" = true := by simp [headerHas, hv]
    simp [setForwardedProto, hh, hv]
  · intro hn
    have hh : headerHas r.header "X-Forwarded-Proto" = false := by simp [headerHas, hn]
    have hg : headerGet r.header "X-Forwarded-Proto" = "" := headerGet_of_none _ _ hn
    by_cases ht : r.tls
    · simp [setForwardedProto, hh, ht, headerSet_self]
    · simp [setForwardedProto, hh, ht, hg, headerSet_self]

theorem setForwardedHost_spec (oh : String) (r : Request) :
    (∀ v, r.header "X-Forwarded-Host" = some v →
      (setForwardedHost oh r).header "X-Forwarded-Host" = some v) ∧
    (r.header "X-Forwarded-Host" = none →
      (setForwardedHost oh r).header "X-Forwarded-Host" = some [oh]) := by
  constructor
  · intro v hv
    have hh : headerHas r.header "X-Forwarded-Host" = true := by simp [headerHas, hv]
    simp [setForwardedHost, hh, hv]
  · intro hn
    have hh : headerHas r.header "X-Forwarded-Host" = false := by simp [headerHas, hn]
    simp [setForwardedHost, hh, headerSet_self]

/-! ### Idempotence of the individual steps where it holds -/

theorem stripHopByHop_idem (r : Request) :
    stripHopByHop (stripHopByHop r) = stripHopByHop r := by
  simp only [stripHopByHop]
  congr 1
  funext q
  by_cases a : q = "Transfer-Encoding" <;> by_cases b : q = "Upgrade" <;>
    by_cases c : q = "Connection" <;> simp [headerDel, a, b, c]

theorem hostRewrite_idem (th : String) (r : Request) :
    hostRewrite th (hostRewrite th r) = hostRewrite th r := rfl

theorem setForwardedProto_idem (r : Request) :
    setForwardedProto (setForwardedProto r) = setForwardedProto r := by
  by_cases hp : headerHas r.header "X-Forwarded-Proto" = true
  · simp [setForwardedProto, hp]
  · have hp' : headerHas r.header "X-Forwarded-Proto" = false := by
      simpa using hp
    have hn : r.header "X-Forwarded-Proto" = none := headerHas_false_eq_none _ _ hp'
    have hg : headerGet r.header "X-Forwarded-Proto" = "" := headerGet_of_none _ _ hn
    by_cases ht : r.tls
    · have e1 : setForwardedProto r
          = { r with header := headerSet r.header "X-Forwarded-Proto" "https" } := by
        simp [setForwardedProto, hp', ht]
      rw [e1]
      simp [setForwardedProto, headerHas_set_self]
    · have e1 : setForwardedProto r
          = { r with header := headerSet r.header "X-Forwarded-Proto" "http" } := by
        simp [setForwardedProto, hp', ht, hg]
      rw [e1]
      simp [setForwardedProto, headerHas_set_self]

theorem setForwardedHost_idem (oh : String) (r : Request) :
    setForwardedHost oh (setForwardedHost oh r) = setForwardedHost oh r := by
  by_cases hp : headerHas r.header "X-Forwarded-Host" = true
  · simp [setForwardedHost, hp]
  · simp [setForwardedHost, hp, headerHas_set_self]

theorem setForwardedFor_idem_trusted (r : Request)
    (hx : headerGet r.header "X-Real-IP" ≠ "") :
    setForwardedFor (setForwardedFor r) = setForwardedFor r := by
  have e1 : setForwardedFor r
      = { r with header :=
            headerSet r.header "X-Forwarded-For" (headerGet r.header "X-Real-IP") } := by
    simp [setForwardedFor, hx]
  have e2 : headerGet (headerSet r.header "X-Forwarded-For" (headerGet r.header "X-Real-IP"))
      "X-Real-IP" = headerGet r.header "X-Real-IP" :=
    headerGet_congr _ _ _ (headerSet_ne _ _ _ _ (by decide))
  rw [e1]
  simp [setForwardedFor, e2, hx, headerSet_set_self]

theorem setForwardedFor_idem_unsplit (r : Request)
    (hx : headerGet r.header "X-Real-IP" = "")
    (hs : splitHostPort r.remoteAddr = none) :
    setForwardedFor (setForwardedFor r) = setForwardedFor r := by
  have e1 : setForwardedFor r = r := by
    simp [setForwardedFor, hx, hs]
  rw [e1, e1]

theorem setForwardedFor_idem_of_unsplit (r : Request)
    (hs : splitHostPort r.remoteAddr = none) :
    setForwardedFor (setForwardedFor r) = setForwardedFor r := by
  by_cases hx : headerGet r.header "X-Real-IP" = ""
  · exact setForwardedFor_idem_unsplit r hx hs
  · exact setForwardedFor_idem_trusted r hx

/-! ### The split of a string on commas is never empty -/

theorem splitOnCommaAux_ne_nil (xs acc : List Char) : splitOnCommaAux xs acc ≠ [] := by
  induction xs generalizing acc with
  | nil => simp [splitOnCommaAux]
  | cons x xs ih =>
    simp only [splitOnCommaAux]
    split
    · simp
    · exact ih _

theorem stringsSplitComma_length_pos (s : String) : (stringsSplitComma s).length > 0 :=
  List.length_pos.mpr (splitOnCommaAux_ne_nil _ _)

/-! ### Reducing the director to its client-chain step -/

theorem director_xff_reduce (t : GoURL) (r : Request) :
    (director t r).header "X-Forwarded-For"
      = (setForwardedFor (hostRewrite t.host (stripHopByHop (singleHostDirector t r)))).header
          "X-Forwarded-For" := by
  simp only [director]
  rw [setForwardedHost_header_ne _ _ _ (by decide), setForwardedProto_header_ne _ _ (by decide)]

/-! ### The claims -/

/-- C1: for every inbound request, after header rewriting the
X-Forwarded-For header is: the X-Real-IP value directly (overwriting any
existing chain) when a non-empty X-Real-IP header is present; otherwise,
when the connection address resolves and a prior chain value exists,
exactly the joined prior values ++ ", " ++ the resolved connection
address; and when no prior chain exists, exactly the resolved connection
address. -/
theorem director_forwarded_for_spec (t : GoURL) (r : Request) :
    (headerGet r.header "X-Real-IP" ≠ "" →
      (director t r).header "X-Forwarded-For" = some [headerGet r.header "X-Real-IP"]) ∧
    (headerGet r.header "X-Real-IP" = "" →
      ∀ ip port, splitHostPort r.remoteAddr = some (ip, port) →
        (∀ prior, r.header "X-Forwarded-For" = some prior →
          (director t r).header "X-Forwarded-For"
            = some [stringsJoinCommaSpace prior ++ ", " ++ ip]) ∧
        (r.header "X-Forwarded-For" = none →
          (director t r).header "X-Forwarded-For" = some [ip])) := by
  have eri : (hostRewrite t.host (stripHopByHop (singleHostDirector t r))).header "X-Real-IP"
      = r.header "X-Real-IP" := by
    show (stripHopByHop (singleHostDirector t r)).header "X-Real-IP"
        = (singleHostDirector t r).header "X-Real-IP"
    exact stripHopByHop_header_ne _ _ (by decide) (by decide) (by decide)
  have exf : (hostRewrite t.host (stripHopByHop (singleHostDirector t r))).header "X-Forwarded-For"
      = r.header "X-Forwarded-For" := by
    show (stripHopByHop (singleHostDirector t r)).header "X-Forwarded-For"
        = (singleHostDirector t r).header "X-Forwarded-For"
    exact stripHopByHop_header_ne _ _ (by decide) (by decide) (by decide)
  have hgri : headerGet (hostRewrite t.host (stripHopByHop (singleHostDirector t r))).header
      "X-Real-IP" = headerGet r.header "X-Real-IP" := headerGet_congr _ _ _ eri
  have hspec := setForwardedFor_spec (hostRewrite t.host (stripHopByHop (singleHostDirector t r)))
  constructor
  · intro hx
    rw [director_xff_reduce, hspec.1 (by rw [hgri]; exact hx), hgri]
  · intro hx ip port hsp
    have h2 := hspec.2 (by rw [hgri]; exact hx) ip port hsp
    constructor
    · intro prior hp
      rw [director_xff_reduce]
      exact h2.1 prior (by rw [exf]; exact hp)
    · intro hn
      rw [director_xff_reduce]
      exact h2.2 (by rw [exf]; exact hn)

/-- Witness for C1: the three cases of director_forwarded_for_spec at
concrete requests — the spec's scenario request (prior chain), a request
with a trusted X-Real-IP, and a bare request. -/
theorem director_forwarded_for_witness :
    (director upstreamT reqChain).header "X-Forwarded-For" = some ["10.0.0.1, 10.0.0.2"] ∧
    (director upstreamT reqTrusted).header "X-Forwarded-For" = some ["9.9.9.9"] ∧
    (director upstreamT reqBare).header "X-Forwarded-For" = some ["10.0.0.2"] := by
  refine ⟨?_, ?_, ?_⟩
  · have h := ((director_forwarded_for_spec upstreamT reqChain).2 (by decide) "10.0.0.2" "443"
      (by decide)).1 ["10.0.0.1"] (by decide)
    exact h.trans (by decide)
  · have h := (director_forwarded_for_spec upstreamT reqTrusted).1 (by decide)
    exact h.trans (by decide)
  · exact ((director_forwarded_for_spec upstreamT reqBare).2 (by decide) "10.0.0.2" "443"
      (by decide)).2 (by decide)

/-- C2: a request already bearing X-Forwarded-Proto keeps its value
unchanged through rewriting; without one, the header becomes exactly
"https" when the inbound connection was TLS and exactly "http"
otherwise. -/
theorem director_forwarded_proto_spec (t : GoURL) (r : Request) :
    (∀ v, r.header "X-Forwarded-Proto" = some v →
      (director t r).header "X-Forwarded-Proto" = some v) ∧
    (r.header "X-Forwarded-Proto" = none →
      (director t r).header "X-Forwarded-Proto"
        = some [if r.tls then "https" else "http"]) := by
  have hd : (director t r).header "X-Forwarded-Proto"
      = (setForwardedProto (setForwardedFor (hostRewrite t.host
          (stripHopByHop (singleHostDirector t r))))).header "X-Forwarded-Proto" := by
    simp only [director]
    rw [setForwardedHost_header_ne _ _ _ (by decide)]
  have e4 : (setForwardedFor (hostRewrite t.host (stripHopByHop (singleHostDirector t r)))).header
      "X-Forwarded-Proto" = r.header "X-Forwarded-Proto" := by
    rw [setForwardedFor_header_ne _ _ (by decide)]
    show (stripHopByHop (singleHostDirector t r)).header "X-Forwarded-Proto"
        = (singleHostDirector t r).header "X-Forwarded-Proto"
    exact stripHopByHop_header_ne _ _ (by decide) (by decide) (by decide)
  have etls : (setForwardedFor (hostRewrite t.host (stripHopByHop (singleHostDirector t r)))).tls
      = r.tls := (setForwardedFor_fields _).2.2.2.2.1
  have hspec := setForwardedProto_spec
    (setForwardedFor (hostRewrite t.host (stripHopByHop (singleHostDirector t r))))
  constructor
  · intro v hv
    rw [hd]
    exact hspec.1 v (by rw [e4]; exact hv)
  · intro hn
    rw [hd, hspec.2 (by rw [e4]; exact hn), etls]

/-- Witness for C2: a preset X-Forwarded-Proto survives (even on a
plaintext connection), and the absent cases give "https" under TLS and
"http" without. -/
theorem director_forwarded_proto_witness :
    (director upstreamT reqPreset).header "X-Forwarded-Proto" = some ["https"] ∧
    (director upstreamT reqChain).header "X-Forwarded-Proto" = some ["https"] ∧
    (director upstreamT reqBare).header "X-Forwarded-Proto" = some ["http"] := by
  refine ⟨?_, ?_, ?_⟩
  · exact (director_forwarded_proto_spec upstreamT reqPreset).1 ["https"] (by decide)
  · exact ((director_forwarded_proto_spec upstreamT reqChain).2 (by decide)).trans (by decide)
  · exact ((director_forwarded_proto_spec upstreamT reqBare).2 (by decide)).trans (by decide)

/-- C3: after rewriting, the request's routing host equals the upstream
target's host; X-Forwarded-Host equals the pre-rewrite original host when
no prior value existed, and an already-present X-Forwarded-Host is
preserved unchanged. -/
theorem director_host_rewrite_spec (t : GoURL) (r : Request) :
    (director t r).host = t.host ∧
    (r.header "X-Forwarded-Host" = none →
      (director t r).header "X-Forwarded-Host" = some [r.host]) ∧
    (∀ v, r.header "X-Forwarded-Host" = some v →
      (director t r).header "X-Forwarded-Host" = some v) := by
  have e5 : (setForwardedProto (setForwardedFor (hostRewrite t.host
      (stripHopByHop (singleHostDirector t r))))).header "X-Forwarded-Host"
      = r.header "X-Forwarded-Host" := by
    rw [setForwardedProto_header_ne _ _ (by decide), setForwardedFor_header_ne _ _ (by decide)]
    show (stripHopByHop (singleHostDirector t r)).header "X-Forwarded-Host"
        = (singleHostDirector t r).header "X-Forwarded-Host"
    exact stripHopByHop_header_ne _ _ (by decide) (by decide) (by decide)
  have hspec := setForwardedHost_spec ((stripHopByHop (singleHostDirector t r)).host)
    (setForwardedProto (setForwardedFor (hostRewrite t.host
      (stripHopByHop (singleHostDirector t r)))))
  refine ⟨?_, ?_, ?_⟩
  · simp only [director]
    rw [(setForwardedHost_fields _ _).2.2.1, (setForwardedProto_fields _).2.2.1,
        (setForwardedFor_fields _).2.2.1]
    rfl
  · intro hn
    simp only [director]
    exact hspec.2 (by rw [e5]; exact hn)
  · intro v hv
    simp only [director]
    exact hspec.1 v (by rw [e5]; exact hv)

/-- Witness for C3: the scenario request's routing host becomes the
upstream host, its X-Forwarded-Host becomes its inbound host, and a
preset X-Forwarded-Host survives. -/
theorem director_host_rewrite_witness :
    (director upstreamT reqChain).host = "backend.internal:9000" ∧
    (director upstreamT reqChain).header "X-Forwarded-Host" = some ["example.com"] ∧
    (director upstreamT reqPreset).header "X-Forwarded-Host" = some ["orig.example"] := by
  refine ⟨?_, ?_, ?_⟩
  · exact (director_host_rewrite_spec upstreamT reqChain).1.trans (by decide)
  · exact ((director_host_rewrite_spec upstreamT reqChain).2.1 (by decide)).trans (by decide)
  · exact (director_host_rewrite_spec upstreamT reqPreset).2.2 ["orig.example"] (by decide)

/-- C4: whatever hop-by-hop headers the inbound request carried, none of
Connection, Upgrade and Transfer-Encoding is present on the request after
rewriting. -/
theorem director_strips_hop_by_hop (t : GoURL) (r : Request) :
    (director t r).header "Connection" = none ∧
    (director t r).header "Upgrade" = none ∧
    (director t r).header "Transfer-Encoding" = none := by
  refine ⟨?_, ?_, ?_⟩ <;>
  · simp only [director]
    rw [setForwardedHost_header_ne _ _ _ (by decide), setForwardedProto_header_ne _ _ (by decide),
        setForwardedFor_header_ne _ _ (by decide)]
    rfl

/-- C5: identity resolution returns, first non-empty winning: the
X-Real-IP value; else the first comma-separated entry of X-Forwarded-For
trimmed of whitespace; else the host part of the remote socket address;
and the raw remote-address string when that address cannot be parsed —
it is a total function and never fails. -/
theorem getRealIP_resolution_spec (r : Request) :
    (headerGet r.header "X-Real-IP" ≠ "" → getRealIP r = headerGet r.header "X-Real-IP") ∧
    (headerGet r.header "X-Real-IP" = "" → headerGet r.header "X-Forwarded-For" ≠ "" →
      getRealIP r
        = trimSpace ((stringsSplitComma (headerGet r.header "X-Forwarded-For")).headD "")) ∧
    (headerGet r.header "X-Real-IP" = "" → headerGet r.header "X-Forwarded-For" = "" →
      ∀ ip port, splitHostPort r.remoteAddr = some (ip, port) → getRealIP r = ip) ∧
    (headerGet r.header "X-Real-IP" = "" → headerGet r.header "X-Forwarded-For" = "" →
      splitHostPort r.remoteAddr = none → getRealIP r = r.remoteAddr) := by
  refine ⟨?_, ?_, ?_, ?_⟩
  · intro hx
    simp [getRealIP, hx]
  · intro hx hf
    simp [getRealIP, hx, hf, stringsSplitComma_length_pos]
  · intro hx hf ip port hsp
    simp [getRealIP, hx, hf, hsp]
  · intro hx hf hn
    simp [getRealIP, hx, hf, hn]

/-- Witness for C5: all four resolution cases at concrete requests,
including the whitespace-trimming of the first chain entry and the
fallback to the raw unsplittable address. -/
theorem getRealIP_resolution_witness :
    getRealIP reqTrusted = "9.9.9.9" ∧
    getRealIP reqSpacedChain = "10.0.0.1" ∧
    getRealIP reqBare = "10.0.0.2" ∧
    getRealIP reqBadAddr = "garbage" := by
  refine ⟨?_, ?_, ?_, ?_⟩
  · exact ((getRealIP_resolution_spec reqTrusted).1 (by decide)).trans (by decide)
  · exact ((getRealIP_resolution_spec reqSpacedChain).2.1 (by decide) (by decide)).trans
      (by decide)
  · exact (getRealIP_resolution_spec reqBare).2.2.1 (by decide) (by decide) "10.0.0.2" "443"
      (by decide)
  · exact ((getRealIP_resolution_spec reqBadAddr).2.2.2 (by decide) (by decide)
      (by decide)).trans (by decide)

/-- C6 counterexample: the client-chain step is not idempotent as
claimed.  On a bare request with connection address 10.0.0.2:443,
applying the step once yields X-Forwarded-For "10.0.0.2" but applying it
twice yields "10.0.0.2, 10.0.0.2", so the request states differ. -/
theorem setForwardedFor_not_idempotent :
    setForwardedFor (setForwardedFor reqBare) ≠ setForwardedFor reqBare := by
  intro h
  have h2 : headerGet (setForwardedFor (setForwardedFor reqBare)).header "X-Forwarded-For"
      = headerGet (setForwardedFor reqBare).header "X-Forwarded-For" := by rw [h]
  have h3 : headerGet (setForwardedFor (setForwardedFor reqBare)).header "X-Forwarded-For"
      = "10.0.0.2, 10.0.0.2" := by decide
  have h4 : headerGet (setForwardedFor reqBare).header "X-Forwarded-For" = "10.0.0.2" := by
    decide
  rw [h3, h4] at h2
  exact absurd h2 (by decide)

/-- C6 (amended): hop-by-hop stripping, host rewrite, the origin-protocol
step and the origin-host step are each independently idempotent; the
client-chain step is idempotent when a non-empty X-Real-IP is present or
when the remote address cannot be split, but not in its append case. -/
theorem rewrite_steps_idempotence_amended :
    (∀ r, stripHopByHop (stripHopByHop r) = stripHopByHop r) ∧
    (∀ th r, hostRewrite th (hostRewrite th r) = hostRewrite th r) ∧
    (∀ r, headerGet r.header "X-Real-IP" ≠ "" →
      setForwardedFor (setForwardedFor r) = setForwardedFor r) ∧
    (∀ r, splitHostPort r.remoteAddr = none →
      setForwardedFor (setForwardedFor r) = setForwardedFor r) ∧
    (∀ r, setForwardedProto (setForwardedProto r) = setForwardedProto r) ∧
    (∀ oh r, setForwardedHost oh (setForwardedHost oh r) = setForwardedHost oh r) :=
  ⟨stripHopByHop_idem, hostRewrite_idem, setForwardedFor_idem_trusted,
   setForwardedFor_idem_of_unsplit, setForwardedProto_idem, setForwardedHost_idem⟩

/-- Witness for the amended C6: the two conditional client-chain cases at
concrete requests. -/
theorem rewrite_steps_idempotence_witness :
    setForwardedFor (setForwardedFor reqTrusted) = setForwardedFor reqTrusted ∧
    setForwardedFor (setForwardedFor reqBadAddr) = setForwardedFor reqBadAddr :=
  ⟨rewrite_steps_idempotence_amended.2.2.1 reqTrusted (by decide),
   rewrite_steps_idempotence_amended.2.2.2.1 reqBadAddr (by decide)⟩

/-- C8: for every transport failure, the client receives the fixed
502 response with the constant minimal body "Proxy error\n" — the
response does not depend on the error detail at all — while the detail
is reported only to the log line. -/
theorem proxyErrorHandler_spec (method urlStr errDetail : String) :
    (proxyErrorHandler method urlStr errDetail).1 = { status := 502, body := "Proxy error\n" } ∧
    (∀ d, (proxyErrorHandler method urlStr d).1 = (proxyErrorHandler method urlStr errDetail).1) ∧
    (proxyErrorHandler method urlStr errDetail).2
      = "Proxy error for " ++ method ++ " " ++ urlStr ++ ": " ++ errDetail :=
  ⟨rfl, fun _ => rfl, rfl⟩

/-- C9: with no non-empty X-Real-IP and an unsplittable remote socket
address, rewriting leaves the X-Forwarded-For entry of the header map
exactly as it arrived (in particular still absent when it was absent). -/
theorem director_xff_unsplittable (t : GoURL) (r : Request)
    (h1 : headerGet r.header "X-Real-IP" = "")
    (h2 : splitHostPort r.remoteAddr = none) :
    (director t r).header "X-Forwarded-For" = r.header "X-Forwarded-For" := by
  have eri : (hostRewrite t.host (stripHopByHop (singleHostDirector t r))).header "X-Real-IP"
      = r.header "X-Real-IP" := by
    show (stripHopByHop (singleHostDirector t r)).header "X-Real-IP"
        = (singleHostDirector t r).header "X-Real-IP"
    exact stripHopByHop_header_ne _ _ (by decide) (by decide) (by decide)
  have exf : (hostRewrite t.host (stripHopByHop (singleHostDirector t r))).header "X-Forwarded-For"
      = r.header "X-Forwarded-For" := by
    show (stripHopByHop (singleHostDirector t r)).header "X-Forwarded-For"
        = (singleHostDirector t r).header "X-Forwarded-For"
    exact stripHopByHop_header_ne _ _ (by decide) (by decide) (by decide)
  have h1' : headerGet (hostRewrite t.host (stripHopByHop (singleHostDirector t r))).header
      "X-Real-IP" = "" := by
    rw [headerGet_congr _ _ _ eri]
    exact h1
  have h2' : splitHostPort (hostRewrite t.host
      (stripHopByHop (singleHostDirector t r))).remoteAddr = none := h2
  have efix : setForwardedFor (hostRewrite t.host (stripHopByHop (singleHostDirector t r)))
      = hostRewrite t.host (stripHopByHop (singleHostDirector t r)) := by
    simp [setForwardedFor, h1', h2']
  rw [director_xff_reduce, efix]
  exact exf

/-- Witness for C9: the request with remote address "garbage" is
forwarded with no X-Forwarded-For header at all. -/
theorem director_xff_unsplittable_witness :
    (director upstreamT reqBadAddr).header "X-Forwarded-For" = none := by
  have h := director_xff_unsplittable upstreamT reqBadAddr (by decide) (by decide)
  exact h.trans (by decide)

/-- C10: rewriting touches only the routing host, the six named headers
and the URL fields; every other header entry and the request's method,
body, remote address and TLS flag are unchanged. -/
theorem director_frame_spec (t : GoURL) (r : Request) (k : String)
    (h1 : k ≠ "Connection") (h2 : k ≠ "Upgrade") (h3 : k ≠ "Transfer-Encoding")
    (h4 : k ≠ "X-Forwarded-For") (h5 : k ≠ "X-Forwarded-Proto") (h6 : k ≠ "X-Forwarded-Host") :
    (director t r).header k = r.header k ∧
    (director t r).method = r.method ∧
    (director t r).body = r.body ∧
    (director t r).remoteAddr = r.remoteAddr ∧
    (director t r).tls = r.tls := by
  refine ⟨?_, ?_, ?_, ?_, ?_⟩
  · simp only [director]
    rw [setForwardedHost_header_ne _ _ _ h6, setForwardedProto_header_ne _ _ h5,
        setForwardedFor_header_ne _ _ h4]
    show (stripHopByHop (singleHostDirector t r)).header k
        = (singleHostDirector t r).header k
    exact stripHopByHop_header_ne _ _ h1 h2 h3
  · simp only [director]
    rw [(setForwardedHost_fields _ _).1, (setForwardedProto_fields _).1,
        (setForwardedFor_fields _).1]
    rfl
  · simp only [director]
    rw [(setForwardedHost_fields _ _).2.2.2.2.2, (setForwardedProto_fields _).2.2.2.2.2,
        (setForwardedFor_fields _).2.2.2.2.2]
    rfl
  · simp only [director]
    rw [(setForwardedHost_fields _ _).2.2.2.1, (setForwardedProto_fields _).2.2.2.1,
        (setForwardedFor_fields _).2.2.2.1]
    rfl
  · simp only [director]
    rw [(setForwardedHost_fields _ _).2.2.2.2.1, (setForwardedProto_fields _).2.2.2.2.1,
        (setForwardedFor_fields _).2.2.2.2.1]
    rfl

/-- Witness for C10: on a request carrying all three hop-by-hop headers,
an unrelated Accept header survives rewriting untouched, as do the method
and the body bytes. -/
theorem director_frame_witness :
    (director upstreamT reqHop).header "Accept" = some ["text/html"] ∧
    (director upstreamT reqHop).method = "GET" ∧
    (director upstreamT reqHop).body = [7, 7] := by
  have h := director_frame_spec upstreamT reqHop "Accept" (by decide) (by decide) (by decide)
    (by decide) (by decide) (by decide)
  exact ⟨h.1.trans (by decide), h.2.1.trans (by decide), h.2.2.1.trans (by decide)⟩
